import Mathlib

/-!
Verification of the node repair script `fix_database.py`.

The script connects to up to three MySQL nodes, ensures the `users.id`
column has the AUTO_INCREMENT attribute, verifies, smoke-tests an
insert/delete, and reports a per-node boolean summary.

We shallowly embed the script: the database client is modelled as an
oracle (`DB`) that records, for each operation the script performs, either
a returned value or a raised Python exception.  The embedded `fix_node`
returns the Python-level outcome (`Except PyExc` — an uncaught exception
would surface as `.error`) together with the trace of actions it
performed: the connection attempt and every SQL statement it issued.
Console printing is not modelled (it has no effect on control flow or on
the returned values, except that the verification step's branch chooses
only between two print statements).
-/

/-- A Python exception, as far as the script can distinguish them:
`mysql.connector.Error` (carrying its `str(e)` message) versus any other
`Exception`. -/
inductive PyExc where
  | dbError (msg : String)
  | other (msg : String)
deriving DecidableEq, Repr

/-- The SQL statements the script can issue. -/
inductive Stmt where
  | describeUsers
  | alterPK
  | alterNoPK
  | showCreateUsers
  | insertTest
  | deleteWhere (id : Nat)
deriving DecidableEq, Repr

/-- An observable action of `fix_node`: attempting the connection, or
issuing one SQL statement via `cursor.execute`. -/
inductive Act where
  | connect
  | sql (s : Stmt)
deriving DecidableEq, Repr

/-- Oracle describing how the database client behaves on this run of
`fix_node`: each operation either succeeds with a value or raises. -/
structure DB where
  connect : Except PyExc Unit
  describeUsers : Except PyExc (List (List String))
  alterPK : Except PyExc Unit
  alterNoPK : Except PyExc Unit
  commitAlter : Except PyExc Unit
  showCreate : Except PyExc String
  insertTest : Except PyExc Unit
  commitInsert : Except PyExc Unit
  lastrowid : Nat
  deleteRow : Except PyExc Unit
  commitDelete : Except PyExc Unit
deriving Repr

/-- Does `pat` occur at the start of `l`? (Embeds Python's `in` operator
on strings, together with `containsSub`.) -/
def startsSub : List Char → List Char → Bool
  | [], _ => true
  | _ :: _, [] => false
  | a :: as, b :: bs => a == b && startsSub as bs

/-- Does `pat` occur as a contiguous substring of `l`?  Embeds Python's
`pat in s`. -/
def containsSub (pat : List Char) : List Char → Bool
  | [] => pat.isEmpty
  | c :: rest => startsSub pat (c :: rest) || containsSub pat rest

/-- Embeds `'1068' in str(e)` (line 70). -/
def contains1068 (msg : String) : Bool :=
  containsSub "1068".toList msg.toList

/-- Embeds `'auto_increment' in extra.lower()` (line 56).  Lowercasing
is done character-wise; the schema metadata this is applied to is
ASCII. -/
def hasAutoIncExtra (extra : String) : Bool :=
  containsSub "auto_increment".toList (extra.toList.map Char.toLower)

/-- Embeds `'AUTO_INCREMENT' in create_table` (line 82). -/
def hasAutoIncMarker (createTable : String) : Bool :=
  containsSub "AUTO_INCREMENT".toList createTable.toList

/-- The predicate of the comprehension `[col for col in columns if
col[0] == 'id']` for a nonempty row (line 53). -/
def isIdRow (row : List String) : Bool :=
  row.headD "" == "id"

/-- Embeds `id_column[0][5] if len(id_column[0]) > 5 else ''` (line 55). -/
def extraOf (row : List String) : String :=
  if row.length > 5 then row.getD 5 "" else ""

/-- Embeds the comprehension `[col for col in columns if col[0] == 'id']`
(line 53).  Python's `col[0]` raises `IndexError` on an empty tuple, so
the comprehension itself is fallible. -/
def filterIdRows (columns : List (List String)) : Except PyExc (List (List String)) :=
  if columns.any List.isEmpty then
    Except.error (PyExc.other "IndexError: tuple index out of range")
  else
    Except.ok (columns.filter isIdRow)

/-- The decision of lines 54-60: given the filtered `id_column` rows,
does the script take the already-fixed early return?  True exactly when
the list is nonempty and its first row's extra field reports
auto_increment. -/
def describeSaysFixedRows (idRows : List (List String)) : Bool :=
  match idRows with
  | row :: _ => hasAutoIncExtra (extraOf row)
  | [] => false

/-- Same decision, taken directly on the DESCRIBE output. -/
def describeSaysFixed (columns : List (List String)) : Bool :=
  describeSaysFixedRows (columns.filter isIdRow)

/-- Embeds lines 66-74: `ALTER ... PRIMARY KEY`, with the fallback
`ALTER` without the PRIMARY KEY clause when a `mysql.connector.Error`
whose message contains `1068` is raised; any other exception is
re-raised.  Returns the outcome and the statements issued. -/
def alterPhase (db : DB) : Except PyExc Unit × List Act :=
  match db.alterPK with
  | Except.ok _ => (Except.ok (), [Act.sql Stmt.alterPK])
  | Except.error e =>
    match e with
    | PyExc.dbError msg =>
      if contains1068 msg then
        match db.alterNoPK with
        | Except.ok _ => (Except.ok (), [Act.sql Stmt.alterPK, Act.sql Stmt.alterNoPK])
        | Except.error e2 => (Except.error e2, [Act.sql Stmt.alterPK, Act.sql Stmt.alterNoPK])
      else (Except.error (PyExc.dbError msg), [Act.sql Stmt.alterPK])
    | PyExc.other msg => (Except.error (PyExc.other msg), [Act.sql Stmt.alterPK])

/-- Embeds lines 88-101: the smoke test (INSERT, commit, read
`lastrowid`, DELETE by that id, commit) ending in `return True`. -/
def smokePhase (db : DB) : Except PyExc Bool × List Act :=
  match db.insertTest with
  | Except.error e => (Except.error e, [Act.sql Stmt.insertTest])
  | Except.ok _ =>
    match db.commitInsert with
    | Except.error e => (Except.error e, [Act.sql Stmt.insertTest])
    | Except.ok _ =>
      match db.deleteRow with
      | Except.error e =>
        (Except.error e, [Act.sql Stmt.insertTest, Act.sql (Stmt.deleteWhere db.lastrowid)])
      | Except.ok _ =>
        match db.commitDelete with
        | Except.error e =>
          (Except.error e, [Act.sql Stmt.insertTest, Act.sql (Stmt.deleteWhere db.lastrowid)])
        | Except.ok _ =>
          (Except.ok true, [Act.sql Stmt.insertTest, Act.sql (Stmt.deleteWhere db.lastrowid)])

/-- Embeds lines 79-101: SHOW CREATE TABLE and its marker check (whose
outcome only selects a print statement, so it is computed and then
discarded here), followed by the smoke test. -/
def verifyPhase (db : DB) : Except PyExc Bool × List Act :=
  match db.showCreate with
  | Except.error e => (Except.error e, [Act.sql Stmt.showCreateUsers])
  | Except.ok createTable =>
    let _verified := hasAutoIncMarker createTable
    let rest := smokePhase db
    (rest.1, Act.sql Stmt.showCreateUsers :: rest.2)

/-- Embeds lines 65-101: the ALTER (with fallback), the commit, then
verification and smoke test. -/
def fixPhase (db : DB) : Except PyExc Bool × List Act :=
  match alterPhase db with
  | (Except.error e, tr) => (Except.error e, tr)
  | (Except.ok _, tr) =>
    match db.commitAlter with
    | Except.error e => (Except.error e, tr)
    | Except.ok _ =>
      let rest := verifyPhase db
      (rest.1, tr ++ rest.2)

/-- The body of the `try` block of `fix_node` (lines 43-107): uncaught
exceptions surface as `.error`.  Also returns the trace of actions. -/
def fixNodeTry (db : DB) : Except PyExc Bool × List Act :=
  match db.connect with
  | Except.error e => (Except.error e, [Act.connect])
  | Except.ok _ =>
    match db.describeUsers with
    | Except.error e => (Except.error e, [Act.connect, Act.sql Stmt.describeUsers])
    | Except.ok columns =>
      match filterIdRows columns with
      | Except.error e => (Except.error e, [Act.connect, Act.sql Stmt.describeUsers])
      | Except.ok idRows =>
        if describeSaysFixedRows idRows then
          (Except.ok true, [Act.connect, Act.sql Stmt.describeUsers])
        else
          let rest := fixPhase db
          (rest.1, Act.connect :: Act.sql Stmt.describeUsers :: rest.2)

/-- Embeds `fix_node` (lines 37-114): the `try` body wrapped in
`except mysql.connector.Error` and `except Exception`, both of which
convert the exception into a `False` outcome.  The result type keeps
`Except PyExc` so that "never raises past its own boundary" is a theorem
about the catch structure rather than true by the embedding's type. -/
def fix_node (db : DB) : Except PyExc (Bool × List Act) :=
  match fixNodeTry db with
  | (Except.ok b, tr) => Except.ok (b, tr)
  | (Except.error (PyExc.dbError _), tr) => Except.ok (false, tr)
  | (Except.error (PyExc.other _), tr) => Except.ok (false, tr)

/-- A node's connection configuration (lines 13-35): each credential field
is the result of `os.getenv`, so it may be absent; Python truthiness also
treats the empty string as missing. -/
structure Config where
  host : Option String
  port : Nat
  user : Option String
  password : Option String
  database : Option String
deriving DecidableEq, Repr

/-- Python truthiness of an optional string: `None` and `''` are falsy. -/
def truthy : Option String → Bool
  | none => false
  | some s => !(s == "")

/-- Embeds `all([config['host'], config['user'], config['password'],
config['database']])` (line 127). -/
def configComplete (c : Config) : Bool :=
  truthy c.host && truthy c.user && truthy c.password && truthy c.database

/-- One configured node as the orchestrator sees it: its display name,
its configuration, and the oracle for how its database behaves. -/
structure NodeEnv where
  name : String
  config : Config
  db : DB
deriving Repr

/-- Embeds the per-node step of `main`'s loop (lines 125-132): incomplete
configuration records `False` without invoking `fix_node` (empty action
trace); otherwise the result of `fix_node` is recorded.  The `.error`
branch mirrors Python: if `fix_node` could raise, `main` would propagate. -/
def processNode (n : NodeEnv) : String × Bool × List Act :=
  if configComplete n.config then
    match fixNodeTry n.db with
    | (Except.ok b, tr) => (n.name, b, tr)
    | (Except.error _, tr) => (n.name, false, tr)
  else (n.name, false, [])

/-- Embeds `main`'s loop over the configured nodes (lines 123-132),
keeping each node's action trace. -/
def runMain (ns : List NodeEnv) : List (String × Bool × List Act) :=
  ns.map processNode

/-- The `results` mapping (insertion-ordered, one entry per node). -/
def results (ns : List NodeEnv) : List (String × Bool) :=
  (runMain ns).map (fun r => (r.1, r.2.1))

/-- Embeds `sum(1 for success in results.values() if success)`
(line 139). -/
def successCount (rs : List (String × Bool)) : Nat :=
  (rs.map Prod.snd).foldl (fun acc success => if success then acc + 1 else acc) 0

/-- Embeds `len(results)` (line 140). -/
def totalCount (rs : List (String × Bool)) : Nat :=
  rs.length

/-- The per-node status lines of the summary (lines 142-144). -/
def statusLines (rs : List (String × Bool)) : List String :=
  rs.map (fun r => r.1 ++ ": " ++ (if r.2 then "✓ FIXED" else "✗ FAILED"))

/-- The node names of the configuration dict (lines 13-35). -/
def nodeNames : List String :=
  ["Central (Node 0)", "Partition 1 (Node 1)", "Partition 2 (Node 2)"]

/-- The single-quote character, as a string. -/
def sqStr : String := String.singleton (Char.ofNat 39)

/-- The exact text of the triple-quoted INSERT literal of lines 89-92,
including its leading newline, indentation, the trailing space after
`updatedAt)`, and the trailing newline plus indentation. -/
def insertSQL : String :=
  "\n            INSERT INTO users (firstname, lastname, city, country, createdAt, updatedAt) \n            VALUES ("
    ++ sqStr ++ "TestFix" ++ sqStr ++ ", " ++ sqStr ++ "User" ++ sqStr ++ ", "
    ++ sqStr ++ "TestCity" ++ sqStr ++ ", " ++ sqStr ++ "USA" ++ sqStr
    ++ ", NOW(), NOW())\n        "

/-- The exact SQL text the script passes to `cursor.execute` for each
statement it can issue (lines 50, 68, 72, 80, 89-92, 99). -/
def Stmt.sql : Stmt → String
  | Stmt.describeUsers => "DESCRIBE users"
  | Stmt.alterPK => "ALTER TABLE users MODIFY COLUMN id INT AUTO_INCREMENT PRIMARY KEY"
  | Stmt.alterNoPK => "ALTER TABLE users MODIFY COLUMN id INT AUTO_INCREMENT"
  | Stmt.showCreateUsers => "SHOW CREATE TABLE users"
  | Stmt.insertTest => insertSQL
  | Stmt.deleteWhere id => "DELETE FROM users WHERE id = " ++ toString id

/-- The INSERT statement exactly as the spec's statement list writes it
(one line, no spaces after the commas separating the quoted values).
This definition follows the spec's words, for comparison with the
source-derived `insertSQL`. -/
def specInsertSQL : String :=
  "INSERT INTO users (firstname, lastname, city, country, createdAt, updatedAt) VALUES ("
    ++ sqStr ++ "TestFix" ++ sqStr ++ "," ++ sqStr ++ "User" ++ sqStr ++ ","
    ++ sqStr ++ "TestCity" ++ sqStr ++ "," ++ sqStr ++ "USA" ++ sqStr
    ++ ", NOW(), NOW())"

/-- Whitespace characters relevant to the SQL literals. -/
def isWS (c : Char) : Bool :=
  c == ' ' || c == '\n' || c == '\t' || c == '\r'

/-- A string with every whitespace character removed. -/
def stripWS (s : String) : String :=
  String.mk (s.toList.filter (fun c => !isWS c))

/- Concrete oracle instances used as witnesses and counterexamples. -/

/-- A DESCRIBE result whose `id` row lacks auto_increment. -/
def colsNotFixed : List (List String) :=
  [["id", "int", "NO", "", "", ""],
   ["firstname", "varchar(50)", "YES", "", "", ""]]

/-- A DESCRIBE result whose `id` row already reports auto_increment. -/
def colsFixed : List (List String) :=
  [["id", "int", "NO", "PRI", "", "auto_increment"],
   ["firstname", "varchar(50)", "YES", "", "", ""]]

/-- A DESCRIBE result with no `id` row at all. -/
def colsNoId : List (List String) :=
  [["firstname", "varchar(50)", "YES", "", "", ""]]

/-- A DESCRIBE result whose `id` row has only three fields. -/
def colsShortId : List (List String) :=
  [["id", "int", "NO"]]

/-- A run in which every database operation succeeds and the column needs
fixing. -/
def dbHappy : DB :=
  { connect := Except.ok ()
  , describeUsers := Except.ok colsNotFixed
  , alterPK := Except.ok ()
  , alterNoPK := Except.ok ()
  , commitAlter := Except.ok ()
  , showCreate := Except.ok "CREATE TABLE users (id int NOT NULL AUTO_INCREMENT, PRIMARY KEY (id))"
  , insertTest := Except.ok ()
  , commitInsert := Except.ok ()
  , lastrowid := 7
  , deleteRow := Except.ok ()
  , commitDelete := Except.ok () }

/-- A run against an already-fixed node. -/
def dbFixed : DB :=
  { dbHappy with describeUsers := Except.ok colsFixed }

/-- A run in which the first ALTER raises the multiple-primary-key error
1068 and the fallback ALTER succeeds. -/
def db1068 : DB :=
  { dbHappy with
      alterPK := Except.error (PyExc.dbError "1068 (42000): Multiple primary key defined") }

/-- A run in which the first ALTER raises a database error other than
1068. -/
def dbOtherErr : DB :=
  { dbHappy with
      alterPK := Except.error (PyExc.dbError "1054 (42S22): Unknown column") }

/-- The SHOW CREATE TABLE output of a run whose verification fails. -/
def noMarkerCreate : String := "CREATE TABLE users (id int NOT NULL)"

/-- A run in which the ALTER and the smoke test succeed but the re-read
table definition lacks the AUTO_INCREMENT marker. -/
def dbNoMarker : DB :=
  { dbHappy with showCreate := Except.ok noMarkerCreate }

/-- A run whose DESCRIBE output has no `id` row. -/
def dbNoId : DB :=
  { dbHappy with describeUsers := Except.ok colsNoId }

/-- A run whose DESCRIBE output has a truncated `id` row. -/
def dbShortId : DB :=
  { dbHappy with describeUsers := Except.ok colsShortId }

/-- A complete connection configuration. -/
def goodConfig : Config :=
  { host := some "10.2.0.1", port := 3306, user := some "root"
  , password := some "secret", database := some "mco2" }

/-- A configuration with a missing host. -/
def noHostConfig : Config :=
  { goodConfig with host := none }

/-- The first sample node: complete configuration, happy run. -/
def nodeA : NodeEnv :=
  { name := "Central (Node 0)", config := goodConfig, db := dbHappy }

/-- The second sample node: incomplete configuration. -/
def nodeB : NodeEnv :=
  { name := "Partition 1 (Node 1)", config := noHostConfig, db := dbHappy }

/-- The third sample node: complete configuration, failing ALTER. -/
def nodeC : NodeEnv :=
  { name := "Partition 2 (Node 2)", config := goodConfig, db := dbOtherErr }

/-- A three-node run with the source's node names: the second node's
configuration is incomplete. -/
def sampleNodes : List NodeEnv := [nodeA, nodeB, nodeC]

/-! Helper lemmas about the phases of `fix_node`. -/

/-- `smokePhase` ignores the `showCreate` field of the oracle. -/
theorem smokePhase_showCreate (db : DB) (x : Except PyExc String) :
    smokePhase { db with showCreate := x } = smokePhase db := rfl

/-- `alterPhase` ignores the `showCreate` field of the oracle. -/
theorem alterPhase_showCreate (db : DB) (x : Except PyExc String) :
    alterPhase { db with showCreate := x } = alterPhase db := rfl

/-- The trace of `alterPhase` always begins with the ALTER ... PRIMARY
KEY statement. -/
theorem alterPhase_trace_head (db : DB) :
    ∃ rest, (alterPhase db).2 = Act.sql Stmt.alterPK :: rest := by
  unfold alterPhase
  rcases h : db.alterPK with e | u
  · rcases e with m | m
    · cases h68 : contains1068 m
      · exact ⟨[], by simp [h, h68]⟩
      · rcases h2 : db.alterNoPK with e2 | u2
        · exact ⟨[Act.sql Stmt.alterNoPK], by simp [h, h68, h2]⟩
        · exact ⟨[Act.sql Stmt.alterNoPK], by simp [h, h68, h2]⟩
    · exact ⟨[], by simp [h]⟩
  · exact ⟨[], by simp [h]⟩

/-- The trace of `smokePhase` always contains the test INSERT. -/
theorem smokePhase_trace_insert (db : DB) :
    Act.sql Stmt.insertTest ∈ (smokePhase db).2 := by
  unfold smokePhase
  rcases h1 : db.insertTest with e | u
  · simp [h1]
  · rcases h2 : db.commitInsert with e | u
    · simp [h1, h2]
    · rcases h3 : db.deleteRow with e | u
      · simp [h1, h2, h3]
      · rcases h4 : db.commitDelete with e | u <;> simp [h1, h2, h3, h4]

/-- `fixPhase` appends some suffix to the trace of `alterPhase`. -/
theorem fixPhase_trace (db : DB) :
    ∃ r suffix, fixPhase db = (r, (alterPhase db).2 ++ suffix) := by
  unfold fixPhase
  rcases ha : alterPhase db with ⟨ar, atr⟩
  rcases ar with e | u
  · exact ⟨Except.error e, [], by simp [ha]⟩
  · rcases hca : db.commitAlter with e | u2
    · exact ⟨Except.error e, [], by simp [ha, hca]⟩
    · exact ⟨(verifyPhase db).1, (verifyPhase db).2, by simp [ha, hca]⟩

/-- When the pre-check does not report the column as fixed, `fixNodeTry`
proceeds past the ALTER: its trace is the connect, the DESCRIBE, the
trace of the alter phase, and some suffix. -/
theorem fixNodeTry_reach_alter (db : DB) (columns idRows : List (List String))
    (hc : db.connect = Except.ok ())
    (hd : db.describeUsers = Except.ok columns)
    (hf : filterIdRows columns = Except.ok idRows)
    (hnf : describeSaysFixedRows idRows = false) :
    ∃ r suffix, fixNodeTry db =
      (r, Act.connect :: Act.sql Stmt.describeUsers :: ((alterPhase db).2 ++ suffix)) := by
  obtain ⟨r, suffix, hfx⟩ := fixPhase_trace db
  refine ⟨r, suffix, ?_⟩
  unfold fixNodeTry
  simp [hc, hd, hf, hnf, hfx]

/-- Same fact lifted through the exception handlers of `fix_node`. -/
theorem reach_alter (db : DB) (columns idRows : List (List String))
    (hc : db.connect = Except.ok ())
    (hd : db.describeUsers = Except.ok columns)
    (hf : filterIdRows columns = Except.ok idRows)
    (hnf : describeSaysFixedRows idRows = false) :
    ∃ b suffix, fix_node db = Except.ok (b,
      Act.connect :: Act.sql Stmt.describeUsers :: ((alterPhase db).2 ++ suffix)) := by
  obtain ⟨r, suffix, htr⟩ := fixNodeTry_reach_alter db columns idRows hc hd hf hnf
  rcases r with e | b
  · rcases e with m | m
    · exact ⟨false, suffix, by unfold fix_node; rw [htr]⟩
    · exact ⟨false, suffix, by unfold fix_node; rw [htr]⟩
  · exact ⟨b, suffix, by unfold fix_node; rw [htr]⟩

/-- A `True` outcome of `fix_node` can only come from a `True` outcome of
the `try` body: the handlers always return `False`. -/
theorem fix_node_true (db : DB) (tr : List Act)
    (h : fix_node db = Except.ok (true, tr)) :
    fixNodeTry db = (Except.ok true, tr) := by
  unfold fix_node at h
  rcases he : fixNodeTry db with ⟨res, tr0⟩
  rw [he] at h
  rcases res with e | b
  · rcases e with m | m <;> simp at h
  · simp at h
    rw [h.1, h.2]

/-- A `True` outcome of `smokePhase` requires the INSERT, both commits,
and the DELETE to have succeeded. -/
theorem smokePhase_true (db : DB) (tr : List Act)
    (h : smokePhase db = (Except.ok true, tr)) :
    db.insertTest = Except.ok () ∧ db.commitInsert = Except.ok () ∧
    db.deleteRow = Except.ok () ∧ db.commitDelete = Except.ok () := by
  unfold smokePhase at h
  rcases h1 : db.insertTest with e | u
  · rw [h1] at h; simp at h
  · rw [h1] at h
    rcases h2 : db.commitInsert with e | u
    · rw [h2] at h; simp at h
    · rw [h2] at h
      rcases h3 : db.deleteRow with e | u
      · rw [h3] at h; simp at h
      · rw [h3] at h
        rcases h4 : db.commitDelete with e | u
        · rw [h4] at h; simp at h
        · exact ⟨rfl, rfl, rfl, rfl⟩

/-- A `True` outcome of `verifyPhase` requires SHOW CREATE TABLE to have
returned a row and the smoke test to have succeeded; nothing is required
of the returned table definition. -/
theorem verifyPhase_true (db : DB) (tr : List Act)
    (h : verifyPhase db = (Except.ok true, tr)) :
    (∃ s, db.showCreate = Except.ok s) ∧
    ∃ tr2, smokePhase db = (Except.ok true, tr2) := by
  unfold verifyPhase at h
  rcases hsc : db.showCreate with e | s
  · rw [hsc] at h; simp at h
  · rw [hsc] at h
    simp only [] at h
    rcases hs : smokePhase db with ⟨sr, str⟩
    rw [hs] at h
    simp at h
    exact ⟨⟨s, rfl⟩, str, by rw [h.1]⟩

/-- A `True` outcome of `fixPhase` requires the ALTER phase and its
commit to have succeeded, followed by a `True` verification phase. -/
theorem fixPhase_true (db : DB) (tr : List Act)
    (h : fixPhase db = (Except.ok true, tr)) :
    (alterPhase db).1 = Except.ok () ∧ db.commitAlter = Except.ok () ∧
    ∃ vtr, verifyPhase db = (Except.ok true, vtr) := by
  unfold fixPhase at h
  rcases ha : alterPhase db with ⟨ar, atr⟩
  rw [ha] at h
  rcases ar with e | u
  · simp at h
  · rcases hca : db.commitAlter with e | u2
    · rw [hca] at h; simp at h
    · rw [hca] at h
      simp only [] at h
      rcases hv : verifyPhase db with ⟨vr, vtr⟩
      rw [hv] at h
      simp at h
      exact ⟨rfl, rfl, vtr, by rw [h.1]⟩

/-- A `True` outcome of the `try` body happens only on the early
already-fixed return or after a `True` `fixPhase`. -/
theorem fixNodeTry_true (db : DB) (tr : List Act)
    (h : fixNodeTry db = (Except.ok true, tr)) :
    ∃ columns idRows, db.connect = Except.ok () ∧
      db.describeUsers = Except.ok columns ∧
      filterIdRows columns = Except.ok idRows ∧
      (describeSaysFixedRows idRows = true ∨
        (describeSaysFixedRows idRows = false ∧
          ∃ ftr, fixPhase db = (Except.ok true, ftr))) := by
  unfold fixNodeTry at h
  split at h
  · simp at h
  · rename_i u hc
    split at h
    · simp at h
    · rename_i columns hd
      split at h
      · simp at h
      · rename_i idRows hf
        split at h
        · rename_i hsf
          exact ⟨columns, idRows, hc, hd, hf, Or.inl hsf⟩
        · rename_i hsf
          simp at h hsf
          refine ⟨columns, idRows, hc, hd, hf, Or.inr ⟨hsf, (fixPhase db).2, ?_⟩⟩
          rw [← h.1]

/-! Helper lemmas about the orchestrator. -/

/-- The recorded key of a processed node is always that node's name. -/
theorem processNode_fst (n : NodeEnv) : (processNode n).1 = n.name := by
  unfold processNode
  cases hcc : configComplete n.config
  · simp
  · rcases hf : fixNodeTry n.db with ⟨r, tr⟩
    rcases r with e | b <;> simp [hf]

/-- The result keys are the node names, in iteration order. -/
theorem results_names (ns : List NodeEnv) :
    (results ns).map Prod.fst = ns.map NodeEnv.name := by
  induction ns with
  | nil => rfl
  | cons n tl ih =>
    simp only [results, runMain, List.map_cons] at ih ⊢
    rw [processNode_fst]
    exact congrArg (n.name :: ·) ih

/-- Folding the summing loop of the summary over a boolean list counts
the `true` entries. -/
theorem foldl_succ_aux (l : List Bool) :
    ∀ acc : Nat, l.foldl (fun a success => if success then a + 1 else a) acc
      = acc + (l.filter (fun b => b)).length := by
  induction l with
  | nil => simp
  | cons hd tl ih =>
    intro acc
    cases hd
    · simp [ih]
    · simp [ih]
      omega

/-- Filtering the booleans commutes with projecting them out. -/
theorem map_snd_filter (rs : List (String × Bool)) :
    (rs.map Prod.snd).filter (fun b => b) = (rs.filter (fun r => r.2)).map Prod.snd := by
  induction rs with
  | nil => rfl
  | cons hd tl ih => cases h : hd.2 <;> simp [List.filter_cons, h, ih]

/-- The success count of the summary equals the number of `true`
results. -/
theorem successCount_eq_filter (rs : List (String × Bool)) :
    successCount rs = (rs.filter (fun r => r.2)).length := by
  unfold successCount
  rw [foldl_succ_aux, map_snd_filter]
  simp

/-! The claims. -/

/-- Claim C1: for every node configuration and every behavior of the
database client — including any exception raised during connect,
describe, alter, commit, verify, insert, or delete, all of which the
oracle `db` ranges over — `fix_node` returns a boolean success/failure
outcome and never propagates an exception to its caller: its result is
always `Except.ok`, never `Except.error`. -/
theorem C1_fix_node_never_raises (db : DB) :
    ∃ b tr, fix_node db = Except.ok (b, tr) := by
  unfold fix_node
  rcases h : fixNodeTry db with ⟨res, tr⟩
  rcases res with e | b
  · rcases e with m | m
    · exact ⟨false, tr, rfl⟩
    · exact ⟨false, tr, rfl⟩
  · exact ⟨b, tr, rfl⟩

/-- Claim C2: when the DESCRIBE output's row for the `id` column (the
head of the filtered `id` rows, which in a well-formed DESCRIBE output is
the only such row) reports auto_increment in its extra field, `fix_node`
returns success immediately: its whole trace is the connection attempt
and the DESCRIBE, so no ALTER, INSERT, or DELETE is issued.  Hence a
second run against an already-fixed node succeeds again without mutating
the schema (idempotence): this theorem applies to that run as well. -/
theorem C2_already_fixed (db : DB) (columns : List (List String))
    (row : List String) (rest : List (List String))
    (hc : db.connect = Except.ok ())
    (hd : db.describeUsers = Except.ok columns)
    (hf : filterIdRows columns = Except.ok (row :: rest))
    (ha : hasAutoIncExtra (extraOf row) = true) :
    fix_node db = Except.ok (true, [Act.connect, Act.sql Stmt.describeUsers]) := by
  unfold fix_node fixNodeTry
  simp [hc, hd, hf, describeSaysFixedRows, ha]

/-- Witness for C2 at a concrete already-fixed oracle. -/
theorem C2_witness :
    fix_node dbFixed = Except.ok (true, [Act.connect, Act.sql Stmt.describeUsers]) :=
  C2_already_fixed dbFixed colsFixed
    ["id", "int", "NO", "PRI", "", "auto_increment"] [] rfl rfl rfl rfl

/-- Claim C3: a node whose configuration is missing a credential is
recorded by the orchestrator as a failure with an empty action trace: the
connection is never attempted and `fix_node` is not invoked for it. -/
theorem C3_incomplete_config_skipped (ns : List NodeEnv) (n : NodeEnv)
    (hmem : n ∈ ns) (hinc : configComplete n.config = false) :
    processNode n = (n.name, false, []) ∧
    (n.name, false, ([] : List Act)) ∈ runMain ns ∧
    Act.connect ∉ (processNode n).2.2 := by
  have hp : processNode n = (n.name, false, []) := by
    unfold processNode
    simp [hinc]
  refine ⟨hp, ?_, ?_⟩
  · have hm := List.mem_map_of_mem processNode hmem
    rw [hp] at hm
    exact hm
  · rw [hp]
    simp

/-- Witness for C3 at the concrete node with a missing host. -/
theorem C3_witness :
    processNode nodeB = (nodeB.name, false, []) ∧
    (nodeB.name, false, ([] : List Act)) ∈ runMain sampleNodes ∧
    Act.connect ∉ (processNode nodeB).2.2 :=
  C3_incomplete_config_skipped sampleNodes nodeB
    (by unfold sampleNodes; exact List.mem_cons_of_mem _ (List.mem_cons_self _ _))
    rfl

/-- Claim C4: when the first ALTER raises the multiple-primary-key
database error (message containing `1068`), `fix_node` issues the
fallback ALTER without the PRIMARY KEY clause and continues to an
ordinary caught outcome; when the first ALTER raises any other database
error, `fix_node` returns failure with a trace that stops at the failed
ALTER, so the test INSERT is never attempted. -/
theorem C4_alter_error_handling (db : DB) (columns idRows : List (List String)) (m : String)
    (hc : db.connect = Except.ok ())
    (hd : db.describeUsers = Except.ok columns)
    (hf : filterIdRows columns = Except.ok idRows)
    (hnf : describeSaysFixedRows idRows = false)
    (herr : db.alterPK = Except.error (PyExc.dbError m)) :
    (contains1068 m = true →
      ∃ b tr, fix_node db = Except.ok (b, tr) ∧ Act.sql Stmt.alterNoPK ∈ tr) ∧
    (contains1068 m = false →
      fix_node db = Except.ok (false,
        [Act.connect, Act.sql Stmt.describeUsers, Act.sql Stmt.alterPK]) ∧
      Act.sql Stmt.insertTest ∉
        [Act.connect, Act.sql Stmt.describeUsers, Act.sql Stmt.alterPK]) := by
  constructor
  · intro h68
    have htr2 : (alterPhase db).2 = [Act.sql Stmt.alterPK, Act.sql Stmt.alterNoPK] := by
      unfold alterPhase
      rcases h2 : db.alterNoPK with e2 | u2 <;> simp [herr, h68, h2]
    obtain ⟨b, suffix, hfx⟩ := reach_alter db columns idRows hc hd hf hnf
    refine ⟨b, _, hfx, ?_⟩
    rw [htr2]
    simp
  · intro h68
    have halter : alterPhase db
        = (Except.error (PyExc.dbError m), [Act.sql Stmt.alterPK]) := by
      unfold alterPhase
      simp [herr, h68]
    constructor
    · unfold fix_node fixNodeTry fixPhase
      simp [hc, hd, hf, hnf, halter]
    · simp

/-- Witness for C4: the 1068 case issues the fallback ALTER, and a 1054
error yields failure without the test INSERT. -/
theorem C4_witness :
    (∃ b tr, fix_node db1068 = Except.ok (b, tr) ∧ Act.sql Stmt.alterNoPK ∈ tr) ∧
    fix_node dbOtherErr = Except.ok (false,
      [Act.connect, Act.sql Stmt.describeUsers, Act.sql Stmt.alterPK]) :=
  ⟨(C4_alter_error_handling db1068 colsNotFixed [["id", "int", "NO", "", "", ""]]
      "1068 (42000): Multiple primary key defined" rfl rfl rfl rfl rfl).1 (by decide),
   ((C4_alter_error_handling dbOtherErr colsNotFixed [["id", "int", "NO", "", "", ""]]
      "1054 (42S22): Unknown column" rfl rfl rfl rfl rfl).2 (by decide)).1⟩

/-- Claim C5 counterexample: a concrete run in which every statement
succeeds but the re-read table definition has no AUTO_INCREMENT marker
(the code's own verification source for the column's state); `fix_node`
nevertheless returns success, with the full trace including the smoke
test.  So the routine can return success while the column, as reported
by SHOW CREATE TABLE, lacks the auto-increment attribute. -/
theorem C5_counterexample :
    fix_node dbNoMarker = Except.ok (true,
      [Act.connect, Act.sql Stmt.describeUsers, Act.sql Stmt.alterPK,
       Act.sql Stmt.showCreateUsers, Act.sql Stmt.insertTest,
       Act.sql (Stmt.deleteWhere 7)]) ∧
    dbNoMarker.showCreate = Except.ok noMarkerCreate ∧
    hasAutoIncMarker noMarkerCreate = false := by
  refine ⟨rfl, rfl, rfl⟩

/-- Claim C5 (amended): `fix_node` always reports an unambiguous boolean,
and it returns success only when the DESCRIBE pre-check reported
auto_increment, or when the ALTER phase, its commit, the SHOW CREATE
re-read, and the entire smoke test succeeded.  (Success does not
additionally guarantee that the re-read table definition contains the
AUTO_INCREMENT marker — verification is non-fatal, as the counterexample
shows.) -/
theorem C5_success_accounted (db : DB) (tr : List Act)
    (h : fix_node db = Except.ok (true, tr)) :
    ∃ columns idRows, db.connect = Except.ok () ∧
      db.describeUsers = Except.ok columns ∧
      filterIdRows columns = Except.ok idRows ∧
      (describeSaysFixedRows idRows = true ∨
        (describeSaysFixedRows idRows = false ∧
          (alterPhase db).1 = Except.ok () ∧ db.commitAlter = Except.ok () ∧
          (∃ s, db.showCreate = Except.ok s) ∧
          db.insertTest = Except.ok () ∧ db.commitInsert = Except.ok () ∧
          db.deleteRow = Except.ok () ∧ db.commitDelete = Except.ok ())) := by
  have htry := fix_node_true db tr h
  obtain ⟨columns, idRows, hc, hd, hf, hrest⟩ := fixNodeTry_true db tr htry
  refine ⟨columns, idRows, hc, hd, hf, ?_⟩
  rcases hrest with hfixed | ⟨hnf, ftr, hfp⟩
  · exact Or.inl hfixed
  · obtain ⟨halter, hca, vtr, hv⟩ := fixPhase_true db ftr hfp
    obtain ⟨hsc, str, hsm⟩ := verifyPhase_true db vtr hv
    obtain ⟨h1, h2, h3, h4⟩ := smokePhase_true db str hsm
    exact Or.inr ⟨hnf, halter, hca, hsc, h1, h2, h3, h4⟩

/-- Witness for C5 (amended) at the all-succeeding oracle. -/
theorem C5_witness :
    ∃ columns idRows, dbHappy.connect = Except.ok () ∧
      dbHappy.describeUsers = Except.ok columns ∧
      filterIdRows columns = Except.ok idRows ∧
      (describeSaysFixedRows idRows = true ∨
        (describeSaysFixedRows idRows = false ∧
          (alterPhase dbHappy).1 = Except.ok () ∧ dbHappy.commitAlter = Except.ok () ∧
          (∃ s, dbHappy.showCreate = Except.ok s) ∧
          dbHappy.insertTest = Except.ok () ∧ dbHappy.commitInsert = Except.ok () ∧
          dbHappy.deleteRow = Except.ok () ∧ dbHappy.commitDelete = Except.ok ())) :=
  C5_success_accounted dbHappy
    [Act.connect, Act.sql Stmt.describeUsers, Act.sql Stmt.alterPK,
     Act.sql Stmt.showCreateUsers, Act.sql Stmt.insertTest,
     Act.sql (Stmt.deleteWhere 7)] rfl

/-- Claim C6: once the run reaches the verification step, the SHOW CREATE
TABLE output has no effect on the outcome: the returned value, including
its trace, is identical whatever table definition string is returned (in
particular when the AUTO_INCREMENT marker is absent), and the smoke-test
INSERT is still issued.  The missing marker only selects a console
message, which is not part of the outcome. -/
theorem C6_verification_nonfatal (db : DB) (columns idRows : List (List String))
    (s s2 : String)
    (hc : db.connect = Except.ok ())
    (hd : db.describeUsers = Except.ok columns)
    (hf : filterIdRows columns = Except.ok idRows)
    (hnf : describeSaysFixedRows idRows = false)
    (halter : (alterPhase db).1 = Except.ok ())
    (hca : db.commitAlter = Except.ok ()) :
    fix_node { db with showCreate := Except.ok s } =
      fix_node { db with showCreate := Except.ok s2 } ∧
    ∃ b tr, fix_node { db with showCreate := Except.ok s } = Except.ok (b, tr) ∧
      Act.sql Stmt.insertTest ∈ tr := by
  rcases ha : alterPhase db with ⟨ar, atr⟩
  rw [ha] at halter
  simp at halter
  subst halter
  have key : ∀ s' : String, fixNodeTry { db with showCreate := Except.ok s' } =
      ((smokePhase db).1, Act.connect :: Act.sql Stmt.describeUsers ::
        (atr ++ Act.sql Stmt.showCreateUsers :: (smokePhase db).2)) := by
    intro s'
    unfold fixNodeTry fixPhase verifyPhase
    rw [alterPhase_showCreate, smokePhase_showCreate, ha]
    simp [hc, hd, hf, hnf, hca]
  have mem : Act.sql Stmt.insertTest ∈
      Act.connect :: Act.sql Stmt.describeUsers ::
        (atr ++ Act.sql Stmt.showCreateUsers :: (smokePhase db).2) :=
    List.mem_cons_of_mem _ (List.mem_cons_of_mem _ (List.mem_append_right _
      (List.mem_cons_of_mem _ (smokePhase_trace_insert db))))
  constructor
  · unfold fix_node
    rw [key s, key s2]
  · rcases hr : (smokePhase db).1 with e | b
    · rcases e with m | m
      · exact ⟨false, _, by unfold fix_node; rw [key s, hr], mem⟩
      · exact ⟨false, _, by unfold fix_node; rw [key s, hr], mem⟩
    · exact ⟨b, _, by unfold fix_node; rw [key s, hr], mem⟩

/-- Witness for C6: a concrete oracle compared under a marker-less and a
marker-bearing SHOW CREATE TABLE output. -/
theorem C6_witness :
    fix_node { dbHappy with showCreate := Except.ok noMarkerCreate } =
      fix_node { dbHappy with
        showCreate := Except.ok "CREATE TABLE users (id int NOT NULL AUTO_INCREMENT)" } ∧
    ∃ b tr, fix_node { dbHappy with showCreate := Except.ok noMarkerCreate }
        = Except.ok (b, tr) ∧
      Act.sql Stmt.insertTest ∈ tr :=
  C6_verification_nonfatal dbHappy colsNotFixed [["id", "int", "NO", "", "", ""]]
    noMarkerCreate "CREATE TABLE users (id int NOT NULL AUTO_INCREMENT)"
    rfl rfl rfl rfl rfl rfl

/-- Claim C7: after a run, the results mapping has exactly one boolean
entry per configured node, keyed by the node names in iteration order;
the reported success count equals the number of entries that are `true`;
the reported total equals the number of configured nodes; there is one
status line per entry; and — the configured names being distinct, as the
source's dict keys are — every node name appears exactly once among the
recorded entries. -/
theorem C7_summary_invariants (ns : List NodeEnv)
    (hnd : (ns.map NodeEnv.name).Nodup) :
    (results ns).map Prod.fst = ns.map NodeEnv.name ∧
    successCount (results ns) = ((results ns).filter (fun r => r.2)).length ∧
    totalCount (results ns) = ns.length ∧
    (statusLines (results ns)).length = ns.length ∧
    ∀ name ∈ ns.map NodeEnv.name, ((results ns).map Prod.fst).count name = 1 := by
  have hnames := results_names ns
  refine ⟨hnames, successCount_eq_filter _, ?_, ?_, ?_⟩
  · unfold totalCount results runMain
    simp
  · unfold statusLines results runMain
    simp
  · intro name hmem
    rw [hnames]
    exact List.count_eq_one_of_mem hnd hmem

/-- Witness for C7 at the concrete three-node run. -/
theorem C7_witness :
    (results sampleNodes).map Prod.fst = sampleNodes.map NodeEnv.name ∧
    successCount (results sampleNodes)
      = ((results sampleNodes).filter (fun r => r.2)).length ∧
    totalCount (results sampleNodes) = sampleNodes.length ∧
    (statusLines (results sampleNodes)).length = sampleNodes.length ∧
    ∀ name ∈ sampleNodes.map NodeEnv.name,
      ((results sampleNodes).map Prod.fst).count name = 1 :=
  C7_summary_invariants sampleNodes (by decide)

/-- Claim C8 counterexample: the INSERT text the script actually issues
is the triple-quoted literal with its newlines, indentation, and spaces
after the commas between the quoted values; it is not bit-exact equal to
the spec's single-line INSERT statement. -/
theorem C8_counterexample : Stmt.insertTest.sql ≠ specInsertSQL := by
  decide

/-- Claim C8 (amended): every SQL statement the script can issue carries
one of the six statement texts; the DESCRIBE, both ALTERs, and the SHOW
CREATE TABLE texts are bit-exact the spec's texts, and the DELETE follows
the spec's `DELETE FROM users WHERE id = <generated id>` shape; the
INSERT text is not the spec's text but equals it up to whitespace only
(the source issues the triple-quoted multi-line literal `insertSQL`). -/
theorem C8_statement_texts :
    (∀ s : Stmt, s.sql = "DESCRIBE users" ∨
      s.sql = "ALTER TABLE users MODIFY COLUMN id INT AUTO_INCREMENT PRIMARY KEY" ∨
      s.sql = "ALTER TABLE users MODIFY COLUMN id INT AUTO_INCREMENT" ∨
      s.sql = "SHOW CREATE TABLE users" ∨
      s.sql = insertSQL ∨
      ∃ id : Nat, s.sql = "DELETE FROM users WHERE id = " ++ toString id) ∧
    insertSQL ≠ specInsertSQL ∧
    stripWS insertSQL = stripWS specInsertSQL := by
  refine ⟨?_, by decide, by decide⟩
  intro s
  cases s with
  | describeUsers => exact Or.inl rfl
  | alterPK => exact Or.inr (Or.inl rfl)
  | alterNoPK => exact Or.inr (Or.inr (Or.inl rfl))
  | showCreateUsers => exact Or.inr (Or.inr (Or.inr (Or.inl rfl)))
  | insertTest => exact Or.inr (Or.inr (Or.inr (Or.inr (Or.inl rfl))))
  | deleteWhere id => exact Or.inr (Or.inr (Or.inr (Or.inr (Or.inr ⟨id, rfl⟩))))

/-- Claim C9: when the DESCRIBE output has no row named `id` at all, the
already-fixed check is skipped (the filtered list is empty, so no early
return fires) and the run proceeds to issue the ALTER: the trace begins
connect, DESCRIBE, ALTER ... PRIMARY KEY, rather than failing or
succeeding early. -/
theorem C9_no_id_row_proceeds (db : DB) (columns : List (List String))
    (hc : db.connect = Except.ok ())
    (hd : db.describeUsers = Except.ok columns)
    (hf : filterIdRows columns = Except.ok []) :
    ∃ b tr, fix_node db = Except.ok (b, tr) ∧
      Act.sql Stmt.alterPK ∈ tr ∧
      tr.take 3 = [Act.connect, Act.sql Stmt.describeUsers, Act.sql Stmt.alterPK] := by
  obtain ⟨b, suffix, hfx⟩ := reach_alter db columns [] hc hd hf rfl
  obtain ⟨rest, hhd⟩ := alterPhase_trace_head db
  refine ⟨b, _, hfx, ?_, ?_⟩
  · rw [hhd]
    simp
  · rw [hhd]
    simp

/-- Witness for C9 at a concrete oracle whose DESCRIBE lists no `id`
column. -/
theorem C9_witness :
    ∃ b tr, fix_node dbNoId = Except.ok (b, tr) ∧
      Act.sql Stmt.alterPK ∈ tr ∧
      tr.take 3 = [Act.connect, Act.sql Stmt.describeUsers, Act.sql Stmt.alterPK] :=
  C9_no_id_row_proceeds dbNoId colsNoId rfl rfl rfl

/-- Claim C10: the already-fixed pre-check is total on truncated rows:
when the `id` row has fewer than six fields, the extra attribute is taken
to be the empty string, the column is therefore treated as not
auto-increment, and the run proceeds to issue the ALTER instead of
stopping with an out-of-bounds index error. -/
theorem C10_short_row_total (db : DB) (columns : List (List String))
    (row : List String) (rest : List (List String))
    (hc : db.connect = Except.ok ())
    (hd : db.describeUsers = Except.ok columns)
    (hf : filterIdRows columns = Except.ok (row :: rest))
    (hshort : row.length < 6) :
    extraOf row = "" ∧
    ∃ b tr, fix_node db = Except.ok (b, tr) ∧ Act.sql Stmt.alterPK ∈ tr := by
  have hex : extraOf row = "" := by
    unfold extraOf
    rw [if_neg (by omega)]
  have hnf : describeSaysFixedRows (row :: rest) = false := by
    rw [show describeSaysFixedRows (row :: rest) = hasAutoIncExtra (extraOf row) from rfl,
      hex]
    rfl
  obtain ⟨b, suffix, hfx⟩ := reach_alter db columns (row :: rest) hc hd hf hnf
  obtain ⟨arest, hhd⟩ := alterPhase_trace_head db
  refine ⟨hex, b, _, hfx, ?_⟩
  rw [hhd]
  simp

/-- Witness for C10 at a concrete oracle whose `id` row has only three
fields. -/
theorem C10_witness :
    extraOf ["id", "int", "NO"] = "" ∧
    ∃ b tr, fix_node dbShortId = Except.ok (b, tr) ∧ Act.sql Stmt.alterPK ∈ tr :=
  C10_short_row_total dbShortId colsShortId ["id", "int", "NO"] [] rfl rfl rfl
    (by decide)
